import Mathlib

/-!
Verification of the wind-layer core (`src/packages/cesium-wind-layer/src/index.ts`).

The embedding models JS numbers as real numbers (ideal arithmetic), flat
`Float32Array` sample buffers as `List ℝ`, and optional record members as
`Option`.  Out-of-range array reads (which in JS yield `undefined`) are
modelled as the unspecified value `0`; no proved statement depends on an
out-of-range read.
-/

noncomputable section

namespace WindLayer

/-- JS `Number.MAX_VALUE`, the largest finite double `(2 - 2⁻⁵²)·2¹⁰²³`. -/
def numberMaxValue : ℝ := 2 ^ 1024 - 2 ^ 971

/-- JS `Number.MIN_VALUE`, the smallest positive double `2⁻¹⁰⁷⁴`
(note: positive, not the most negative double). -/
def numberMinValue : ℝ := 1 / 2 ^ 1074

/-- Array read `a[i]` with an integer index; JS returns `undefined` outside
the valid range, modelled here by `0`. -/
def getAt (a : List ℝ) (i : ℤ) : ℝ :=
  if 0 ≤ i then a.getD i.toNat 0 else 0

/-- A fully-populated data axis: sample buffer plus cached `min`/`max`. -/
structure Axis where
  array : List ℝ
  min : ℝ
  max : ℝ
  deriving DecidableEq

/-- The optional `speed` member of raw `WindData`: every field may be absent
(the code tests `speed?.min`, `speed?.max` and `speed.array` separately). -/
structure SpeedInput where
  array : Option (List ℝ)
  min : Option ℝ
  max : Option ℝ

/-- The optional `mask` member of raw `WindData`: the buffer is present,
`min`/`max` may be absent. -/
structure MaskInput where
  array : List ℝ
  min : Option ℝ
  max : Option ℝ

/-- Geographic bounds rectangle `{west, east, south, north}` in degrees. -/
structure WindBounds where
  west : ℝ
  east : ℝ
  south : ℝ
  north : ℝ
  deriving DecidableEq

/-- Raw `WindData` as accepted by the layer: `u`/`v` always present,
`speed` and `mask` optional. -/
structure WindData where
  u : Axis
  v : Axis
  width : ℕ
  height : ℕ
  bounds : WindBounds
  speed : Option SpeedInput
  mask : Option MaskInput

/-- `Required<WindData>`: the result of `processWindData`, with every axis
populated. -/
structure RequiredWindData where
  u : Axis
  v : Axis
  speed : Axis
  mask : Axis
  width : ℕ
  height : ℕ
  bounds : WindBounds
  deriving DecidableEq

/-- The derived-speed loop of `processWindData` (lines 122-133): a same-length
buffer with `speed[i] = sqrt(u[i]*u[i] + v[i]*v[i])`, and `min`/`max`
accumulated from the `MAX_VALUE`/`MIN_VALUE` sentinels only over indices
whose speed is nonzero. -/
def deriveSpeed (u v : List ℝ) : Axis :=
  let arr := (List.range u.length).map
    (fun i => Real.sqrt (u.getD i 0 * u.getD i 0 + v.getD i 0 * v.getD i 0))
  let mm := arr.foldl
    (fun p s => if s ≠ 0 then (min p.1 s, max p.2 s) else p)
    (numberMaxValue, numberMinValue)
  ⟨arr, mm.1, mm.2⟩

/-- The mask `min`/`max` scan of `processWindData` (lines 147-152): plain
min/max over every sample, no zero exclusion. -/
def maskMinMax (a : List ℝ) : ℝ × ℝ :=
  a.foldl (fun p s => (min p.1 s, max p.2 s)) (numberMaxValue, numberMinValue)

/-- `processWindData` (lines 120-158): derive the speed axis when its array
or cached `min`/`max` are absent; synthesize an all-ones mask when the mask
is absent; scan the provided mask for `min`/`max` when those are absent. -/
def processWindData (wd : WindData) : RequiredWindData :=
  let speed : Axis :=
    match wd.speed with
    | some s =>
      match s.min, s.max, s.array with
      | some mn, some mx, some arr => ⟨arr, mn, mx⟩
      | _, _, _ => deriveSpeed wd.u.array wd.v.array
    | none => deriveSpeed wd.u.array wd.v.array
  let mask : Axis :=
    match wd.mask with
    | none => ⟨List.replicate wd.u.array.length 1, 1, 1⟩
    | some m =>
      match m.min, m.max with
      | some mn, some mx => ⟨m.array, mn, mx⟩
      | _, _ => ⟨m.array, (maskMinMax m.array).1, (maskMinMax m.array).2⟩
  ⟨wd.u, wd.v, speed, mask, wd.width, wd.height, wd.bounds⟩

/-- View a fully-populated field again as raw `WindData` (every optional
member present), for feeding it back into `processWindData`. -/
def toWindData (r : RequiredWindData) : WindData :=
  { u := r.u, v := r.v, width := r.width, height := r.height,
    bounds := r.bounds,
    speed := some ⟨some r.speed.array, some r.speed.min, some r.speed.max⟩,
    mask := some ⟨r.mask.array, some r.mask.min, some r.mask.max⟩ }

/-- One point sample `{u, v, speed}`. -/
structure WindSample where
  u : ℝ
  v : ℝ
  speed : ℝ
  deriving DecidableEq

/-- The `WindDataAtLonLat` result record of `getDataAtLonLat`. -/
structure WindDataAtLonLat where
  original : WindSample
  interpolated : WindSample
  deriving DecidableEq

/-- Grid-space x coordinate of a query (line 176):
`(lon - west) / (east - west) * (width - 1)`. -/
def xNormOf (wd : RequiredWindData) (lon : ℝ) : ℝ :=
  (lon - wd.bounds.west) / (wd.bounds.east - wd.bounds.west) * ((wd.width : ℝ) - 1)

/-- Grid-space y coordinate of a query (lines 177-182), inverted when
`flipY` is set. -/
def yNormOf (wd : RequiredWindData) (flipY : Bool) (lat : ℝ) : ℝ :=
  let y := (lat - wd.bounds.south) / (wd.bounds.north - wd.bounds.south) * ((wd.height : ℝ) - 1)
  if flipY then ((wd.height : ℝ) - 1) - y else y

/-- `getDataAtLonLat` (lines 166-236): `null` outside the bounds, otherwise
the raw nearest-floor sample plus the bilinearly interpolated sample, with
the interpolated speed recomputed as `sqrt(uInterp² + vInterp²)`. -/
def getDataAtLonLat (wd : RequiredWindData) (flipY : Bool) (lon lat : ℝ) :
    Option WindDataAtLonLat :=
  let b := wd.bounds
  if lon < b.west ∨ lon > b.east ∨ lat < b.south ∨ lat > b.north then
    none
  else
    let xNorm := xNormOf wd lon
    let yNorm := yNormOf wd flipY lat
    let x : ℤ := ⌊xNorm⌋
    let y : ℤ := ⌊yNorm⌋
    let x0 : ℤ := ⌊xNorm⌋
    let x1 : ℤ := min (x0 + 1) ((wd.width : ℤ) - 1)
    let y0 : ℤ := ⌊yNorm⌋
    let y1 : ℤ := min (y0 + 1) ((wd.height : ℤ) - 1)
    let wx : ℝ := xNorm - (x0 : ℝ)
    let wy : ℝ := yNorm - (y0 : ℝ)
    let index := y * (wd.width : ℤ) + x
    let i00 := y0 * (wd.width : ℤ) + x0
    let i10 := y0 * (wd.width : ℤ) + x1
    let i01 := y1 * (wd.width : ℤ) + x0
    let i11 := y1 * (wd.width : ℤ) + x1
    let u00 := getAt wd.u.array i00
    let u10 := getAt wd.u.array i10
    let u01 := getAt wd.u.array i01
    let u11 := getAt wd.u.array i11
    let uInterp := (1 - wx) * (1 - wy) * u00 + wx * (1 - wy) * u10 +
      (1 - wx) * wy * u01 + wx * wy * u11
    let v00 := getAt wd.v.array i00
    let v10 := getAt wd.v.array i10
    let v01 := getAt wd.v.array i01
    let v11 := getAt wd.v.array i11
    let vInterp := (1 - wx) * (1 - wy) * v00 + wx * (1 - wy) * v10 +
      (1 - wx) * wy * v01 + wx * wy * v11
    let interpolatedSpeed := Real.sqrt (uInterp * uInterp + vInterp * vInterp)
    some
      { original :=
          { u := getAt wd.u.array index,
            v := getAt wd.v.array index,
            speed := getAt wd.speed.array index },
        interpolated :=
          { u := uInterp, v := vInterp, speed := interpolatedSpeed } }

/-! ## Viewport tracker (`updateViewerParameters`, lines 238-317)

The Cesium scene is external: the projection of the four screen corners to
`(lon, lat)` degrees is taken as an input, one `Option (ℝ × ℝ)` per corner
(`none` = `pickEllipsoid` returned no intersection), and the current scene
mode as an input value. -/

/-- Cesium `SceneMode`. -/
inductive SceneMode where
  | morphing
  | columbusView
  | scene2D
  | scene3D
  deriving DecidableEq

/-- The min/max accumulator over projected corners. -/
structure Extent where
  minLon : ℝ
  maxLon : ℝ
  minLat : ℝ
  maxLat : ℝ
  deriving DecidableEq

/-- Initial accumulator values (lines 249-252). -/
def initExtent : Extent := ⟨180, -180, 90, -90⟩

/-- The corner loop (lines 255-274): fold min/max over the projected
corners, stopping with `none` at the first corner that misses the globe
(`isOutsideGlobe` + `break`). -/
def foldCorners : List (Option (ℝ × ℝ)) → Extent → Option Extent
  | [], acc => some acc
  | none :: _, _ => none
  | some c :: rest, acc =>
      foldCorners rest
        ⟨min acc.minLon c.1, max acc.maxLon c.1,
         min acc.minLat c.2, max acc.maxLat c.2⟩

/-- Extent of the four projected corners, `none` when any corner misses. -/
def cornersExtent (corners : List (Option (ℝ × ℝ))) : Option Extent :=
  foldCorners corners initExtent

/-- Per-axis visible range (lines 278-294): intersect the visible
`[mn, mx]` with the data bounds `[lo, hi]`, widen by 5% of the resulting
width, reclamp to `[lo, hi]`. -/
def bufferedRange (lo hi mn mx : ℝ) : ℝ × ℝ :=
  let x := max lo mn
  let y := min hi mx
  let buf := (y - x) * (5 / 100)
  (max lo (x - buf), min hi (y + buf))

/-- Visible-to-total ratio (lines 299-305): the smaller of the per-axis
visible-range fractions. -/
def visibleRatio (wd : RequiredWindData) (lonR latR : ℝ × ℝ) : ℝ :=
  min ((lonR.2 - lonR.1) / (wd.bounds.east - wd.bounds.west))
    ((latR.2 - latR.1) / (wd.bounds.north - wd.bounds.south))

/-- The ratio computed from a corner extent, after buffering. -/
def ratioOf (wd : RequiredWindData) (e : Extent) : ℝ :=
  visibleRatio wd
    (bufferedRange wd.bounds.west wd.bounds.east e.minLon e.maxLon)
    (bufferedRange wd.bounds.south wd.bounds.north e.minLat e.maxLat)

/-- The mutable `viewerParameters` record. -/
structure ViewerParams where
  lonRange : ℝ × ℝ
  latRange : ℝ × ℝ
  pixelSize : ℝ
  sceneMode : SceneMode
  deriving DecidableEq

/-- `updateViewerParameters` (lines 238-317) as a state transformer: when
every corner projects, replace `lonRange`/`latRange` by the buffered
intersection with the data bounds and assign the clamped
`1000 × visibleRatio` to `pixelSize` only when it is positive; when any
corner misses the globe, keep the ranges and `pixelSize`; refresh
`sceneMode` in either case. -/
def updateViewerParameters (wd : RequiredWindData)
    (corners : List (Option (ℝ × ℝ))) (mode : SceneMode)
    (prev : ViewerParams) : ViewerParams :=
  match cornersExtent corners with
  | none => { prev with sceneMode := mode }
  | some e =>
      let lonR := bufferedRange wd.bounds.west wd.bounds.east e.minLon e.maxLon
      let latR := bufferedRange wd.bounds.south wd.bounds.north e.minLat e.maxLat
      let pixelSize := 1000 * visibleRatio wd lonR latR
      { lonRange := lonR,
        latRange := latR,
        pixelSize :=
          if pixelSize > 0 then max 0 (min 1000 pixelSize) else prev.pixelSize,
        sceneMode := mode }

/-! ## Layer controller (lifecycle, options, event listeners) -/

/-- A `{min, max}` option group. -/
structure RangeOption where
  min : ℝ
  max : ℝ
  deriving DecidableEq

/-- `WindLayerOptions` (the fields of `DefaultOptions`, lines 19-33). -/
structure WindLayerOptions where
  particlesTextureSize : ℝ
  dropRate : ℝ
  particleHeight : ℝ
  dropRateBump : ℝ
  speedFactor : ℝ
  lineWidth : RangeOption
  lineLength : RangeOption
  colors : List String
  flipY : Bool
  useViewerBounds : Bool
  domain : Option RangeOption
  displayRange : Option RangeOption
  dynamic : Bool
  deriving DecidableEq

/-- A partial update for a `{min, max}` option group. -/
structure RangeOptionUpdate where
  min : Option ℝ
  max : Option ℝ

/-- `Partial<WindLayerOptions>`: every option may be absent. -/
structure WindLayerOptionsUpdate where
  particlesTextureSize : Option ℝ := none
  dropRate : Option ℝ := none
  particleHeight : Option ℝ := none
  dropRateBump : Option ℝ := none
  speedFactor : Option ℝ := none
  lineWidth : Option RangeOptionUpdate := none
  lineLength : Option RangeOptionUpdate := none
  colors : Option (List String) := none
  flipY : Option Bool := none
  useViewerBounds : Option Bool := none
  domain : Option (Option RangeOption) := none
  displayRange : Option (Option RangeOption) := none
  dynamic : Option Bool := none

/-- Merge a partial `{min, max}` group onto a full one, key by key. -/
def mergeRange (p : Option RangeOptionUpdate) (o : RangeOption) : RangeOption :=
  match p with
  | none => o
  | some q => ⟨q.min.getD o.min, q.max.getD o.max⟩

/-- Modelled from the spec: `deepMerge` from `./utils` (the module is not in
`src/`); §4.4: "deep-merge partial onto current options (nested groups merge
key-by-key; unspecified nested keys are preserved from the previous
snapshot)". -/
def deepMerge (p : WindLayerOptionsUpdate) (o : WindLayerOptions) :
    WindLayerOptions :=
  { particlesTextureSize := p.particlesTextureSize.getD o.particlesTextureSize,
    dropRate := p.dropRate.getD o.dropRate,
    particleHeight := p.particleHeight.getD o.particleHeight,
    dropRateBump := p.dropRateBump.getD o.dropRateBump,
    speedFactor := p.speedFactor.getD o.speedFactor,
    lineWidth := mergeRange p.lineWidth o.lineWidth,
    lineLength := mergeRange p.lineLength o.lineLength,
    colors := p.colors.getD o.colors,
    flipY := p.flipY.getD o.flipY,
    useViewerBounds := p.useViewerBounds.getD o.useViewerBounds,
    domain := p.domain.getD o.domain,
    displayRange := p.displayRange.getD o.displayRange,
    dynamic := p.dynamic.getD o.dynamic }

/-- The external listener registries touched by `setupEventListeners` /
`removeEventListeners`: `camera.changed`, `scene.morphComplete` and the
window resize event.  Listeners are identified by function identity, here a
token `ℕ`. -/
structure EventSources where
  cameraChanged : List ℕ
  morphComplete : List ℕ
  windowResize : List ℕ
  deriving DecidableEq

/-- The layer's observable state.  `bindCtr` models JS function identity:
every evaluation of `this.updateViewerParameters.bind(this)` allocates a
fresh function object, modelled by consuming one token from the counter. -/
structure LayerState where
  isDestroyed : Bool
  windData : RequiredWindData
  options : WindLayerOptions
  primitives : List ℕ
  sources : EventSources
  bindCtr : ℕ
  deriving DecidableEq

/-- A notification delivered to `dispatchEvent` subscribers. -/
inductive EmittedEvent where
  | dataChange (d : RequiredWindData)
  | optionsChange (o : WindLayerOptions)
  deriving DecidableEq

/-- `setupEventListeners` (lines 107-112): register three freshly-bound
handlers with the camera-changed, morph-complete and window-resize sources. -/
def setupEventListeners (st : LayerState) : LayerState :=
  { st with
    sources :=
      ⟨st.sources.cameraChanged ++ [st.bindCtr],
       st.sources.morphComplete ++ [st.bindCtr + 1],
       st.sources.windowResize ++ [st.bindCtr + 2]⟩,
    bindCtr := st.bindCtr + 3 }

/-- `removeEventListeners` (lines 114-118): ask each source to remove a
freshly-bound handler.  Each `.bind(this)` here creates a new function
object, so the tokens passed to removal are `st.bindCtr`, `st.bindCtr + 1`,
`st.bindCtr + 2` — fresh, distinct from any previously registered token;
removing an unregistered listener is a no-op of the registry. -/
def removeEventListeners (st : LayerState) : LayerState :=
  { st with
    sources :=
      ⟨st.sources.cameraChanged.erase st.bindCtr,
       st.sources.morphComplete.erase (st.bindCtr + 1),
       st.sources.windowResize.erase (st.bindCtr + 2)⟩,
    bindCtr := st.bindCtr + 3 }

/-- `updateWindData` (lines 323-330): silent early return when destroyed;
otherwise re-normalize, store, and emit a `dataChange` notification.  The
second component lists the notifications dispatched by the call. -/
def updateWindData (st : LayerState) (data : WindData) :
    LayerState × List EmittedEvent :=
  if st.isDestroyed then (st, [])
  else
    ({ st with windData := processWindData data },
     [.dataChange (processWindData data)])

/-- `updateOptions` (lines 336-343): silent early return when destroyed;
otherwise deep-merge, store, and emit an `optionsChange` notification. -/
def updateOptions (st : LayerState) (options : WindLayerOptionsUpdate) :
    LayerState × List EmittedEvent :=
  if st.isDestroyed then (st, [])
  else
    ({ st with options := deepMerge options st.options },
     [.optionsChange (deepMerge options st.options)])

/-- `isDestroyed` (lines 388-390). -/
def isDestroyed (st : LayerState) : Bool :=
  st.isDestroyed

/-- `destroy` (lines 395-402): detach primitives, run
`removeEventListeners`, release the particle system, clear subscriptions,
and set the destroyed flag. -/
def destroy (st : LayerState) : LayerState :=
  let st' := removeEventListeners { st with primitives := [] }
  { st' with isDestroyed := true }

/-! ## Concrete sample data used by witnesses and counterexamples -/

/-- A 2×2 field on `[0,10]×[0,10]` with `u ≡ 3`, `v ≡ 4`, `speed ≡ 5`. -/
def wdEx : RequiredWindData :=
  ⟨⟨[3, 3, 3, 3], 3, 3⟩, ⟨[4, 4, 4, 4], 4, 4⟩, ⟨[5, 5, 5, 5], 5, 5⟩,
   ⟨[1, 1, 1, 1], 1, 1⟩, 2, 2, ⟨0, 10, 0, 10⟩⟩

/-- A width-1, height-2 field on `[0,1]×[0,1]` with `u = [0, 2]`. -/
def wdTall : RequiredWindData :=
  ⟨⟨[0, 2], 0, 2⟩, ⟨[0, 0], 0, 0⟩, ⟨[0, 2], 0, 2⟩, ⟨[1, 1], 1, 1⟩,
   1, 2, ⟨0, 1, 0, 1⟩⟩

/-- A 1×1 field on `[0,1]×[0,1]` with the single sample `u = 7`, `v = 0`. -/
def wdOne : RequiredWindData :=
  ⟨⟨[7], 7, 7⟩, ⟨[0], 0, 0⟩, ⟨[7], 7, 7⟩, ⟨[1], 1, 1⟩, 1, 1, ⟨0, 1, 0, 1⟩⟩

/-- A previous viewport state with `pixelSize = 1000`. -/
def prevEx : ViewerParams := ⟨(0, 10), (0, 10), 1000, SceneMode.scene3D⟩

/-- Corner projections covering exactly the bounds of `wdEx`. -/
def csFull : List (Option (ℝ × ℝ)) :=
  [some (0, 0), some (0, 10), some (10, 0), some (10, 10)]

/-- Corner projections covering the quarter `[0,5]×[0,5]` of `wdEx`. -/
def csHalf : List (Option (ℝ × ℝ)) :=
  [some (0, 0), some (0, 5), some (5, 0), some (5, 5)]

/-- Corner projections covering `[20,30]×[20,30]`, disjoint from `wdEx`'s
bounds. -/
def csAway : List (Option (ℝ × ℝ)) :=
  [some (20, 20), some (20, 30), some (30, 20), some (30, 30)]

/-- Corner projections in which the second corner misses the globe. -/
def csMiss : List (Option (ℝ × ℝ)) :=
  [some (0, 0), none, some (1, 1), some (2, 2)]

/-- A raw `WindData` with one nonzero cell `(u,v) = (3,4)` of magnitude 5,
no speed axis and no mask. -/
def rawEx : WindData :=
  ⟨⟨[0, 3, 0, 0], 0, 3⟩, ⟨[0, 4, 0, 0], 0, 4⟩, 2, 2, ⟨0, 10, 0, 10⟩,
   none, none⟩

/-- A raw `WindData` whose speed and mask members are fully specified. -/
def wdCompleteEx : WindData :=
  { u := ⟨[3, 3, 3, 3], 3, 3⟩, v := ⟨[4, 4, 4, 4], 4, 4⟩,
    width := 2, height := 2, bounds := ⟨0, 10, 0, 10⟩,
    speed := some ⟨some [5, 5, 5, 5], some 5, some 5⟩,
    mask := some ⟨[1, 1, 1, 1], some 1, some 1⟩ }

end WindLayer

namespace WindLayer

/-! ## Shared lemmas -/

/-- The corner fold aborts whenever some corner failed to project. -/
lemma foldCorners_of_none_mem (cs : List (Option (ℝ × ℝ))) (h : none ∈ cs)
    (acc : Extent) : foldCorners cs acc = none := by
  induction cs generalizing acc with
  | nil => simp at h
  | cons c rest ih =>
    cases c with
    | none => rfl
    | some p =>
      simp only [List.mem_cons] at h
      rcases h with h | h
      · exact absurd h (by simp)
      · exact ih h _

/-! ## Claims -/

/-- C1: for every field, a query strictly inside the geographic bounds
returns a non-null result, and a query strictly outside the bounds on any
side returns null. -/
theorem claim1_query_in_bounds (wd : RequiredWindData) (flipY : Bool)
    (lon lat : ℝ) :
    (wd.bounds.west < lon ∧ lon < wd.bounds.east ∧
        wd.bounds.south < lat ∧ lat < wd.bounds.north →
      (getDataAtLonLat wd flipY lon lat).isSome = true) ∧
    (lon < wd.bounds.west ∨ lon > wd.bounds.east ∨
        lat < wd.bounds.south ∨ lat > wd.bounds.north →
      getDataAtLonLat wd flipY lon lat = none) := by
  constructor
  · rintro ⟨h1, h2, h3, h4⟩
    simp only [getDataAtLonLat]
    rw [if_neg]
    · simp
    · push_neg
      exact ⟨h1.le, h2.le, h3.le, h4.le⟩
  · intro h
    simp only [getDataAtLonLat]
    rw [if_pos h]

/-- Witness for C1 at the field `wdEx`: `(5,5)` is strictly inside and
yields a result, `(20,5)` is strictly outside and yields null. -/
theorem claim1_query_in_bounds_witness :
    (getDataAtLonLat wdEx false 5 5).isSome = true ∧
    getDataAtLonLat wdEx false 20 5 = none :=
  ⟨(claim1_query_in_bounds wdEx false 5 5).1 (by norm_num [wdEx]),
   (claim1_query_in_bounds wdEx false 20 5).2 (by norm_num [wdEx])⟩

/-- C4: when any screen corner fails to project onto the globe, the
recomputation leaves `lonRange`, `latRange` and `pixelSize` untouched and
only refreshes `sceneMode`; `sceneMode` is refreshed regardless of the
intersection outcome. -/
theorem claim4_offglobe_preserves_ranges (wd : RequiredWindData)
    (cs : List (Option (ℝ × ℝ))) (mode : SceneMode) (prev : ViewerParams) :
    (none ∈ cs →
      updateViewerParameters wd cs mode prev = { prev with sceneMode := mode }) ∧
    (updateViewerParameters wd cs mode prev).sceneMode = mode := by
  constructor
  · intro h
    simp only [updateViewerParameters, cornersExtent,
      foldCorners_of_none_mem cs h]
  · rcases hc : cornersExtent cs with _ | e <;>
      simp [updateViewerParameters, hc]

/-- Witness for C4: a concrete corner list whose second corner misses the
globe preserves the previous ranges and refreshes the scene mode. -/
theorem claim4_offglobe_preserves_ranges_witness :
    updateViewerParameters wdEx csMiss SceneMode.scene2D prevEx =
      { prevEx with sceneMode := SceneMode.scene2D } ∧
    (updateViewerParameters wdEx csMiss SceneMode.scene2D prevEx).sceneMode =
      SceneMode.scene2D :=
  ⟨(claim4_offglobe_preserves_ranges wdEx csMiss SceneMode.scene2D prevEx).1
      (by simp [csMiss]),
   (claim4_offglobe_preserves_ranges wdEx csMiss SceneMode.scene2D prevEx).2⟩

/-- `√25 = 5`. -/
lemma sqrt_twentyfive : Real.sqrt 25 = 5 := by
  rw [show (25 : ℝ) = 5 ^ 2 by norm_num, Real.sqrt_sq (by norm_num)]

/-- `5` is below the `Number.MAX_VALUE` sentinel. -/
lemma five_le_maxValue : (5 : ℝ) ≤ numberMaxValue := by
  rw [numberMaxValue]
  norm_num

/-- `5` is above the `Number.MIN_VALUE` sentinel. -/
lemma minValue_le_five : numberMinValue ≤ (5 : ℝ) := by
  rw [numberMinValue]
  norm_num

/-- The sentinels satisfy `MIN_VALUE < MAX_VALUE`. -/
lemma minValue_lt_maxValue : numberMinValue < numberMaxValue := by
  rw [numberMinValue, numberMaxValue]
  norm_num

/-- C5: a derived speed axis stores `sqrt(u[i]² + v[i]²)` per cell and fits
`min`/`max` only to nonzero cells: the field `rawEx` with a single cell of
magnitude 5 gets `min = max = 5`, and an all-zero field keeps the inverted
`MAX_VALUE`/`MIN_VALUE` sentinels (`min > max`) without failing. -/
theorem claim5_zero_excluded_minmax (wd : WindData) (i : ℕ) :
    ((wd.speed = none ∨ ∃ s, wd.speed = some s ∧
        (s.min = none ∨ s.max = none ∨ s.array = none)) →
      (processWindData wd).speed = deriveSpeed wd.u.array wd.v.array) ∧
    (i < wd.u.array.length →
      (deriveSpeed wd.u.array wd.v.array).array.getD i 0 =
        Real.sqrt (wd.u.array.getD i 0 * wd.u.array.getD i 0 +
          wd.v.array.getD i 0 * wd.v.array.getD i 0)) ∧
    ((processWindData rawEx).speed.array = [0, 5, 0, 0] ∧
      (processWindData rawEx).speed.min = 5 ∧
      (processWindData rawEx).speed.max = 5) ∧
    ((deriveSpeed [0, 0, 0] [0, 0, 0]).min = numberMaxValue ∧
      (deriveSpeed [0, 0, 0] [0, 0, 0]).max = numberMinValue ∧
      (deriveSpeed [0, 0, 0] [0, 0, 0]).max <
        (deriveSpeed [0, 0, 0] [0, 0, 0]).min) := by
  refine ⟨?_, ?_, ?_, ?_⟩
  · rintro (h | ⟨s, hs, hcase⟩)
    · simp [processWindData, h]
    · rcases s with ⟨sa, sm, sx⟩
      rcases sm with _ | mn <;> rcases sx with _ | mx <;>
        rcases sa with _ | arr <;> simp_all [processWindData]
  · intro hi
    simp [deriveSpeed, List.getD_eq_getElem?_getD, List.getElem?_map,
      List.getElem?_range, hi]
  · have harr : (processWindData rawEx).speed.array = [0, 5, 0, 0] := by
      simp [processWindData, rawEx, deriveSpeed, List.range_succ]
      norm_num [sqrt_twentyfive, Real.sqrt_zero]
    refine ⟨harr, ?_, ?_⟩ <;>
    · simp [processWindData, rawEx, deriveSpeed, List.range_succ]
      norm_num [sqrt_twentyfive, Real.sqrt_zero,
        min_eq_right five_le_maxValue, max_eq_right minValue_le_five]
  · refine ⟨?_, ?_, ?_⟩ <;>
      norm_num [deriveSpeed, List.range_succ, Real.sqrt_zero,
        minValue_lt_maxValue]

/-- Witness for C5: the derivation branch fires on `rawEx` (speed absent),
and cell 1 of the derived axis is `sqrt(3·3 + 4·4)`. -/
theorem claim5_zero_excluded_minmax_witness :
    (processWindData rawEx).speed =
      deriveSpeed rawEx.u.array rawEx.v.array ∧
    (deriveSpeed rawEx.u.array rawEx.v.array).array.getD 1 0 =
      Real.sqrt (rawEx.u.array.getD 1 0 * rawEx.u.array.getD 1 0 +
        rawEx.v.array.getD 1 0 * rawEx.v.array.getD 1 0) :=
  ⟨(claim5_zero_excluded_minmax rawEx 1).1 (Or.inl rfl),
   (claim5_zero_excluded_minmax rawEx 1).2.1 (by norm_num [rawEx])⟩

/-- C6: `processWindData` passes a fully-specified speed and mask axis
through unchanged, and normalizing an already-normalized field again is the
identity (normalize twice = normalize once). -/
theorem claim6_normalize_idempotent (wd : WindData) (sa ma : List ℝ)
    (smn smx mmn mmx : ℝ) :
    (wd.speed = some ⟨some sa, some smn, some smx⟩ →
      wd.mask = some ⟨ma, some mmn, some mmx⟩ →
      processWindData wd =
        ⟨wd.u, wd.v, ⟨sa, smn, smx⟩, ⟨ma, mmn, mmx⟩,
         wd.width, wd.height, wd.bounds⟩) ∧
    processWindData (toWindData (processWindData wd)) = processWindData wd := by
  constructor
  · intro h1 h2
    simp [processWindData, h1, h2]
  · rfl

/-- Witness for C6 on the fully-specified field `wdCompleteEx`. -/
theorem claim6_normalize_idempotent_witness :
    processWindData wdCompleteEx =
      ⟨wdCompleteEx.u, wdCompleteEx.v, ⟨[5, 5, 5, 5], 5, 5⟩,
       ⟨[1, 1, 1, 1], 1, 1⟩, wdCompleteEx.width, wdCompleteEx.height,
       wdCompleteEx.bounds⟩ ∧
    processWindData (toWindData (processWindData wdCompleteEx)) =
      processWindData wdCompleteEx :=
  ⟨(claim6_normalize_idempotent wdCompleteEx [5, 5, 5, 5] [1, 1, 1, 1]
      5 5 1 1).1 rfl rfl,
   (claim6_normalize_idempotent wdCompleteEx [5, 5, 5, 5] [1, 1, 1, 1]
      5 5 1 1).2⟩

/-- Counterexample to C7 as stated: on the width-1, height-2 field
`wdTall`, the in-bounds query `(0, 1/2)` has `wy = 1/2 ≠ 0`, and the
interpolated `u` (namely 1) differs from the raw nearest-floor sample
(namely 0) — width 1 alone does not collapse bilinear to nearest. -/
theorem claim7_counterexample :
    wdTall.width = 1 ∧
    (getDataAtLonLat wdTall false 0 (1 / 2)).map
      (fun r => r.interpolated.u) = some 1 ∧
    (getDataAtLonLat wdTall false 0 (1 / 2)).map
      (fun r => r.original.u) = some 0 := by
  have hf : ⌊(2⁻¹ : ℝ)⌋ = 0 := by
    rw [Int.floor_eq_iff]
    norm_num
  refine ⟨rfl, ?_, ?_⟩ <;>
    norm_num [getDataAtLonLat, xNormOf, yNormOf, getAt, wdTall, hf,
      List.getD]

/-- C7 (amended): when both interpolation weights vanish — the query maps
to integer grid coordinates on both axes, as every query does on a
width-1 and height-1 grid — the interpolated `u` and `v` equal the raw
nearest-floor sample. -/
theorem claim7_zero_weights_nearest (wd : RequiredWindData) (flipY : Bool)
    (lon lat : ℝ)
    (hin : ¬(lon < wd.bounds.west ∨ lon > wd.bounds.east ∨
      lat < wd.bounds.south ∨ lat > wd.bounds.north))
    (hx : (⌊xNormOf wd lon⌋ : ℝ) = xNormOf wd lon)
    (hy : (⌊yNormOf wd flipY lat⌋ : ℝ) = yNormOf wd flipY lat) :
    (getDataAtLonLat wd flipY lon lat).map
        (fun r => (r.interpolated.u, r.interpolated.v)) =
      (getDataAtLonLat wd flipY lon lat).map
        (fun r => (r.original.u, r.original.v)) := by
  have hwx : xNormOf wd lon - (⌊xNormOf wd lon⌋ : ℝ) = 0 := by
    rw [hx]; ring
  have hwy : yNormOf wd flipY lat - (⌊yNormOf wd flipY lat⌋ : ℝ) = 0 := by
    rw [hy]; ring
  simp only [getDataAtLonLat]
  rw [if_neg hin]
  simp only [Option.map_some, Option.some.injEq, Prod.mk.injEq, hwx, hwy]
  norm_num

/-- Witness for C7: every query on the 1×1 grid `wdOne` satisfies the
zero-weight hypotheses; at `(1/2, 1/2)` both samples agree. -/
theorem claim7_zero_weights_nearest_witness :
    (getDataAtLonLat wdOne false (1 / 2) (1 / 2)).map
        (fun r => (r.interpolated.u, r.interpolated.v)) =
      (getDataAtLonLat wdOne false (1 / 2) (1 / 2)).map
        (fun r => (r.original.u, r.original.v)) :=
  claim7_zero_weights_nearest wdOne false (1 / 2) (1 / 2)
    (by norm_num [wdOne])
    (by norm_num [xNormOf, wdOne])
    (by norm_num [yNormOf, wdOne])

/-- Evaluation of the query at the south-west corner of `wdEx`. -/
lemma getDataAtLonLat_wdEx_eval :
    getDataAtLonLat wdEx false 0 0 =
      some ⟨⟨3, 4, 5⟩, ⟨3, 4, Real.sqrt 25⟩⟩ := by
  simp only [getDataAtLonLat, xNormOf, yNormOf, getAt, wdEx]
  norm_num [List.getD]

/-- C8: whenever the query returns a result, the interpolated speed equals
`sqrt(uInterp² + vInterp²)` computed from the interpolated components. -/
theorem claim8_speed_from_components (wd : RequiredWindData) (flipY : Bool)
    (lon lat : ℝ) (r : WindDataAtLonLat)
    (h : getDataAtLonLat wd flipY lon lat = some r) :
    r.interpolated.speed =
      Real.sqrt (r.interpolated.u * r.interpolated.u +
        r.interpolated.v * r.interpolated.v) := by
  simp only [getDataAtLonLat] at h
  split at h
  · exact absurd h (by simp)
  · obtain rfl : _ = r := (Option.some.injEq _ _).mp h
    rfl

/-- Witness for C8: the query on `wdEx` at `(0,0)` returns interpolated
components `(3,4)` and speed `sqrt 25`. -/
theorem claim8_speed_from_components_witness :
    (⟨⟨3, 4, 5⟩, ⟨3, 4, Real.sqrt 25⟩⟩ :
        WindDataAtLonLat).interpolated.speed =
      Real.sqrt
        ((⟨⟨3, 4, 5⟩, ⟨3, 4, Real.sqrt 25⟩⟩ :
            WindDataAtLonLat).interpolated.u *
          (⟨⟨3, 4, 5⟩, ⟨3, 4, Real.sqrt 25⟩⟩ :
            WindDataAtLonLat).interpolated.u +
          (⟨⟨3, 4, 5⟩, ⟨3, 4, Real.sqrt 25⟩⟩ :
            WindDataAtLonLat).interpolated.v *
          (⟨⟨3, 4, 5⟩, ⟨3, 4, Real.sqrt 25⟩⟩ :
            WindDataAtLonLat).interpolated.v) :=
  claim8_speed_from_components wdEx false 0 0 _ getDataAtLonLat_wdEx_eval

/-- On-globe recomputation written as an explicit record. -/
lemma update_on {wd : RequiredWindData} {cs : List (Option (ℝ × ℝ))}
    {mode : SceneMode} {prev : ViewerParams} {e : Extent}
    (he : cornersExtent cs = some e) :
    updateViewerParameters wd cs mode prev =
      { lonRange :=
          bufferedRange wd.bounds.west wd.bounds.east e.minLon e.maxLon,
        latRange :=
          bufferedRange wd.bounds.south wd.bounds.north e.minLat e.maxLat,
        pixelSize :=
          if 1000 * ratioOf wd e > 0 then
            max 0 (min 1000 (1000 * ratioOf wd e))
          else prev.pixelSize,
        sceneMode := mode } := by
  simp only [updateViewerParameters, he, ratioOf]

/-- `pixelSize` after an on-globe recomputation. -/
lemma update_pixelSize {wd : RequiredWindData} {cs : List (Option (ℝ × ℝ))}
    {mode : SceneMode} {prev : ViewerParams} {e : Extent}
    (he : cornersExtent cs = some e) :
    (updateViewerParameters wd cs mode prev).pixelSize =
      if 1000 * ratioOf wd e > 0 then
        max 0 (min 1000 (1000 * ratioOf wd e))
      else prev.pixelSize := by
  rw [update_on he]

/-- `lonRange` after an on-globe recomputation. -/
lemma update_lonRange {wd : RequiredWindData} {cs : List (Option (ℝ × ℝ))}
    {mode : SceneMode} {prev : ViewerParams} {e : Extent}
    (he : cornersExtent cs = some e) :
    (updateViewerParameters wd cs mode prev).lonRange =
      bufferedRange wd.bounds.west wd.bounds.east e.minLon e.maxLon := by
  rw [update_on he]

/-- The full-view corner list folds to the extent `[0,10]×[0,10]`. -/
lemma cornersExtent_csFull : cornersExtent csFull = some ⟨0, 10, 0, 10⟩ := by
  norm_num [cornersExtent, csFull, foldCorners, initExtent, min_def, max_def]

/-- The quarter-view corner list folds to the extent `[0,5]×[0,5]`. -/
lemma cornersExtent_csHalf : cornersExtent csHalf = some ⟨0, 5, 0, 5⟩ := by
  norm_num [cornersExtent, csHalf, foldCorners, initExtent, min_def, max_def]

/-- The disjoint corner list folds to the extent `[20,30]×[20,30]`. -/
lemma cornersExtent_csAway : cornersExtent csAway = some ⟨20, 30, 20, 30⟩ := by
  norm_num [cornersExtent, csAway, foldCorners, initExtent, min_def, max_def]

/-- The full view of `wdEx` has visible ratio 1. -/
lemma ratioOf_full : ratioOf wdEx ⟨0, 10, 0, 10⟩ = 1 := by
  norm_num [ratioOf, visibleRatio, bufferedRange, wdEx, min_def, max_def]

/-- The quarter view of `wdEx` has visible ratio `21/40` (5.25/10, after
the 5% buffer). -/
lemma ratioOf_half : ratioOf wdEx ⟨0, 5, 0, 5⟩ = 21 / 40 := by
  norm_num [ratioOf, visibleRatio, bufferedRange, wdEx, min_def, max_def]

/-- Counterexample to C2 as stated: the quarter view of `wdEx` has a
strictly smaller visible fraction than the full view, yet produces a
strictly smaller `pixelSize` (525 vs 1000) — the claimed direction is
reversed. -/
theorem claim2_counterexample :
    cornersExtent csHalf = some ⟨0, 5, 0, 5⟩ ∧
    cornersExtent csFull = some ⟨0, 10, 0, 10⟩ ∧
    ratioOf wdEx ⟨0, 5, 0, 5⟩ < ratioOf wdEx ⟨0, 10, 0, 10⟩ ∧
    (updateViewerParameters wdEx csHalf SceneMode.scene3D prevEx).pixelSize <
      (updateViewerParameters wdEx csFull SceneMode.scene3D prevEx).pixelSize := by
  refine ⟨cornersExtent_csHalf, cornersExtent_csFull, ?_, ?_⟩
  · rw [ratioOf_half, ratioOf_full]; norm_num
  · rw [update_pixelSize cornersExtent_csHalf,
      update_pixelSize cornersExtent_csFull, ratioOf_half, ratioOf_full]
    norm_num [min_def, max_def]

/-- C2 (amended): over the same field, `pixelSize` is monotonically
non-decreasing in the visible-to-total ratio — a larger visible fraction
yields a pixelSize at least that of a smaller one (both recomputations
on-globe with positive computed ratio). -/
theorem claim2_pixelSize_monotone (wd : RequiredWindData) (mode : SceneMode)
    (prev : ViewerParams) (cs1 cs2 : List (Option (ℝ × ℝ))) (e1 e2 : Extent)
    (h1 : cornersExtent cs1 = some e1) (h2 : cornersExtent cs2 = some e2)
    (hpos : 0 < ratioOf wd e1) (hle : ratioOf wd e1 ≤ ratioOf wd e2) :
    (updateViewerParameters wd cs1 mode prev).pixelSize ≤
      (updateViewerParameters wd cs2 mode prev).pixelSize := by
  rw [update_pixelSize h1, update_pixelSize h2]
  have p1 : (0 : ℝ) < 1000 * ratioOf wd e1 := by linarith
  have p2 : (0 : ℝ) < 1000 * ratioOf wd e2 := by linarith
  rw [if_pos p1, if_pos p2]
  exact max_le_max le_rfl (min_le_min le_rfl (by linarith))

/-- Witness for C2 (amended): the quarter view yields at most the full
view's `pixelSize` on `wdEx`. -/
theorem claim2_pixelSize_monotone_witness :
    (updateViewerParameters wdEx csHalf SceneMode.scene3D prevEx).pixelSize ≤
      (updateViewerParameters wdEx csFull SceneMode.scene3D prevEx).pixelSize :=
  claim2_pixelSize_monotone wdEx SceneMode.scene3D prevEx csHalf csFull
    ⟨0, 5, 0, 5⟩ ⟨0, 10, 0, 10⟩ cornersExtent_csHalf cornersExtent_csFull
    (by rw [ratioOf_half]; norm_num)
    (by rw [ratioOf_half, ratioOf_full]; norm_num)

/-- A buffered range stays inside the data bounds whenever the visible
rectangle actually meets them. -/
lemma bufferedRange_bounds (lo hi mn mx : ℝ) (hlh : lo ≤ hi)
    (hne : max lo mn ≤ min hi mx) :
    lo ≤ (bufferedRange lo hi mn mx).1 ∧
    (bufferedRange lo hi mn mx).1 ≤ hi ∧
    lo ≤ (bufferedRange lo hi mn mx).2 ∧
    (bufferedRange lo hi mn mx).2 ≤ hi := by
  simp only [bufferedRange]
  have hxlo : lo ≤ max lo mn := le_max_left _ _
  have hyhi : min hi mx ≤ hi := min_le_left _ _
  have hbuf : 0 ≤ (min hi mx - max lo mn) * (5 / 100) := by nlinarith
  refine ⟨le_max_left _ _, ?_, ?_, min_le_left _ _⟩
  · exact max_le hlh (by linarith)
  · exact le_min hlh (by linarith)

/-- Counterexample to C3 as stated: all four corners of `csAway` project,
but the viewport is disjoint from `wdEx`'s bounds, the intersection is
inverted, the 5% buffer is negative, and the resulting `lonRange.x = 20.5`
exceeds `bounds.east = 10`. -/
theorem claim3_counterexample :
    cornersExtent csAway = some ⟨20, 30, 20, 30⟩ ∧
    wdEx.bounds.east <
      (updateViewerParameters wdEx csAway SceneMode.scene3D prevEx).lonRange.1 := by
  refine ⟨cornersExtent_csAway, ?_⟩
  rw [update_lonRange cornersExtent_csAway]
  norm_num [bufferedRange, wdEx, min_def, max_def]

/-- C3 (amended): after an on-globe recomputation whose visible rectangle
meets the field bounds on both axes, `lonRange` stays within
`[west, east]`, `latRange` within `[south, north]`, `pixelSize` within
`[0,1000]` (given the previous value was), and a non-positive computed
`pixelSize` leaves the previous value untouched. -/
theorem claim3_viewport_invariants (wd : RequiredWindData)
    (cs : List (Option (ℝ × ℝ))) (mode : SceneMode) (prev : ViewerParams)
    (e : Extent) (he : cornersExtent cs = some e)
    (hwe : wd.bounds.west ≤ wd.bounds.east)
    (hsn : wd.bounds.south ≤ wd.bounds.north)
    (hlon : max wd.bounds.west e.minLon ≤ min wd.bounds.east e.maxLon)
    (hlat : max wd.bounds.south e.minLat ≤ min wd.bounds.north e.maxLat)
    (hp0 : 0 ≤ prev.pixelSize) (hp1 : prev.pixelSize ≤ 1000) :
    (wd.bounds.west ≤ (updateViewerParameters wd cs mode prev).lonRange.1 ∧
      (updateViewerParameters wd cs mode prev).lonRange.1 ≤ wd.bounds.east) ∧
    (wd.bounds.west ≤ (updateViewerParameters wd cs mode prev).lonRange.2 ∧
      (updateViewerParameters wd cs mode prev).lonRange.2 ≤ wd.bounds.east) ∧
    (wd.bounds.south ≤ (updateViewerParameters wd cs mode prev).latRange.1 ∧
      (updateViewerParameters wd cs mode prev).latRange.1 ≤ wd.bounds.north) ∧
    (wd.bounds.south ≤ (updateViewerParameters wd cs mode prev).latRange.2 ∧
      (updateViewerParameters wd cs mode prev).latRange.2 ≤ wd.bounds.north) ∧
    (0 ≤ (updateViewerParameters wd cs mode prev).pixelSize ∧
      (updateViewerParameters wd cs mode prev).pixelSize ≤ 1000) ∧
    (1000 * ratioOf wd e ≤ 0 →
      (updateViewerParameters wd cs mode prev).pixelSize = prev.pixelSize) := by
  have hlonB := bufferedRange_bounds wd.bounds.west wd.bounds.east
    e.minLon e.maxLon hwe hlon
  have hlatB := bufferedRange_bounds wd.bounds.south wd.bounds.north
    e.minLat e.maxLat hsn hlat
  rw [update_on he]
  dsimp only
  refine ⟨⟨hlonB.1, hlonB.2.1⟩, ⟨hlonB.2.2.1, hlonB.2.2.2⟩,
    ⟨hlatB.1, hlatB.2.1⟩, ⟨hlatB.2.2.1, hlatB.2.2.2⟩, ⟨?_, ?_⟩, ?_⟩
  · split_ifs with h
    · exact le_max_left _ _
    · exact hp0
  · split_ifs with h
    · exact max_le (by norm_num) (min_le_left _ _)
    · exact hp1
  · intro hnp
    rw [if_neg (by linarith)]

/-- Witness for C3 (amended) at the full view of `wdEx`. -/
theorem claim3_viewport_invariants_witness :
    (wdEx.bounds.west ≤
        (updateViewerParameters wdEx csFull SceneMode.scene3D prevEx).lonRange.1 ∧
      (updateViewerParameters wdEx csFull SceneMode.scene3D prevEx).lonRange.1 ≤
        wdEx.bounds.east) ∧
    (wdEx.bounds.west ≤
        (updateViewerParameters wdEx csFull SceneMode.scene3D prevEx).lonRange.2 ∧
      (updateViewerParameters wdEx csFull SceneMode.scene3D prevEx).lonRange.2 ≤
        wdEx.bounds.east) ∧
    (wdEx.bounds.south ≤
        (updateViewerParameters wdEx csFull SceneMode.scene3D prevEx).latRange.1 ∧
      (updateViewerParameters wdEx csFull SceneMode.scene3D prevEx).latRange.1 ≤
        wdEx.bounds.north) ∧
    (wdEx.bounds.south ≤
        (updateViewerParameters wdEx csFull SceneMode.scene3D prevEx).latRange.2 ∧
      (updateViewerParameters wdEx csFull SceneMode.scene3D prevEx).latRange.2 ≤
        wdEx.bounds.north) ∧
    (0 ≤ (updateViewerParameters wdEx csFull SceneMode.scene3D prevEx).pixelSize ∧
      (updateViewerParameters wdEx csFull SceneMode.scene3D prevEx).pixelSize ≤
        1000) ∧
    (1000 * ratioOf wdEx ⟨0, 10, 0, 10⟩ ≤ 0 →
      (updateViewerParameters wdEx csFull SceneMode.scene3D prevEx).pixelSize =
        prevEx.pixelSize) :=
  claim3_viewport_invariants wdEx csFull SceneMode.scene3D prevEx
    ⟨0, 10, 0, 10⟩ cornersExtent_csFull (by norm_num [wdEx])
    (by norm_num [wdEx]) (by norm_num [wdEx]) (by norm_num [wdEx])
    (by norm_num [prevEx]) (by norm_num [prevEx])

/-- C9: once `destroy()` has run, `updateWindData` and `updateOptions`
return silently without changing the state and without emitting any
notification, and `isDestroyed()` returns true. -/
theorem claim9_destroyed_mutations_noop (st : LayerState) (d : WindData)
    (p : WindLayerOptionsUpdate) :
    updateWindData (destroy st) d = (destroy st, []) ∧
    updateOptions (destroy st) p = (destroy st, []) ∧
    isDestroyed (destroy st) = true :=
  ⟨rfl, rfl, rfl⟩

/-- C10 (code bug): the three handlers registered at construction are still
registered after `destroy()`, because `removeEventListeners` passes freshly
`bind`-created function objects to the removal calls. -/
theorem claim10_listeners_survive_destroy (st : LayerState) :
    st.bindCtr ∈ (destroy (setupEventListeners st)).sources.cameraChanged ∧
    st.bindCtr + 1 ∈ (destroy (setupEventListeners st)).sources.morphComplete ∧
    st.bindCtr + 2 ∈ (destroy (setupEventListeners st)).sources.windowResize := by
  refine ⟨?_, ?_, ?_⟩ <;>
  · simp only [destroy, setupEventListeners, removeEventListeners]
    rw [List.mem_erase_of_ne (by omega)]
    simp

end WindLayer
